import Mathlib

/-!
Shallow embedding of `src/eq_monitor.py` (a USGS earthquake monitor that
classifies quakes against Polymarket market rules, keeps a 24h pending
revision window per matched quake, notifies a Discord webhook and sends a
daily heartbeat).

Numeric representation.  The script works with Python floats whose constants
all have at most four decimal places (magnitudes such as `6.5`, coordinates
such as `34.0522`, the radius `80.4672`), and with timestamps that are
integral milliseconds.  The embedding therefore uses exact fixed-point
integers:
* magnitudes, latitudes, longitudes and kilometre distances are `Int`
  multiples of `1/10000` (so `6.5` is `65000`, `80.4672` is `804672`);
* instants are `Int` epoch milliseconds (the script's
  `datetime.fromtimestamp(time_ms / 1000)` conversion and `astimezone`
  both preserve the instant, and comparison of timezone-aware datetimes
  compares instants, so every time comparison in the script is an instant
  comparison).
Order, `max` and the affine time arithmetic (`now + 24h`) are preserved
exactly by this representation.  The haversine distance `km_distance`
is floating-point trigonometry; it is embedded as an abstract distance
function `dist` passed to the classifier (the classifier only ever
compares its result with a constant).
-/

namespace EqMonitor

/-! ### Calendar helper

The script builds its market windows from ET wall-clock datetime literals,
where `ET = timezone(timedelta(hours=-4))` is a fixed UTC-4 offset
(eq_monitor.py line 73).  `daysFromCivil` is the standard civil-calendar to
epoch-day conversion; `etInstant` turns an ET datetime literal into its
epoch-millisecond instant (adding the 4h offset). -/

def daysFromCivil (y m d : Int) : Int :=
  let y2 := if m ≤ 2 then y - 1 else y
  let era := (if 0 ≤ y2 then y2 else y2 - 399) / 400
  let yoe := y2 - era * 400
  let mp := (m + 9) % 12
  let doy := (153 * mp + 2) / 5 + d - 1
  let doe := yoe * 365 + yoe / 4 - yoe / 100 + doy
  era * 146097 + doe - 719468

def etInstant (y m d hh mi ss : Int) : Int :=
  (86400 * daysFromCivil y m d + 3600 * hh + 60 * mi + ss + 4 * 3600) * 1000

/-! ### Config constants (eq_monitor.py lines 57-135) -/

/-- `CRITICAL_MAG = 6.4` (line 62), fixed-point. -/
def CRITICAL_MAG : Int := 64000

/-- `HEARTBEAT_HOUR = 16` (line 64). -/
def HEARTBEAT_HOUR : Nat := 16

/-- `FIFTY_MILES_KM = 80.4672` (line 69), fixed-point km. -/
def FIFTY_MILES_KM : Int := 804672

/-- `LOS_ANGELES = (34.0522, -118.2437)` (line 68), fixed-point degrees. -/
def LA_LAT : Int := 340522

def LA_LON : Int := -1182437

/-- `PENDING_HOURS = 24` (line 133) expressed in milliseconds:
`timedelta(hours=24)`. -/
def PENDING_MS : Int := 24 * 3600 * 1000

/-! Market windows (lines 76-130), as epoch-millisecond instants. -/

def LA_START_ET : Int := etInstant 2025 6 9 0 0 0
def LA_END_ET : Int := etInstant 2025 12 31 23 59 59
def MEGA1_START_ET : Int := etInstant 2025 10 30 0 0 0
def MEGA1_END_ET : Int := etInstant 2025 11 30 23 59 59
def MEGA2_START_ET : Int := etInstant 2025 9 30 0 0 0
def MEGA2_END_ET : Int := etInstant 2025 12 31 23 59 59
def ANY7_1_START_ET : Int := etInstant 2025 10 30 19 0 0
def ANY7_1_END_ET : Int := etInstant 2025 11 15 23 59 59
def ANY7_2_START_ET : Int := etInstant 2025 10 30 19 0 0
def ANY7_2_END_ET : Int := etInstant 2025 11 30 23 59 59
def QUAKE_10_BEFORE_2027_START_ET : Int := etInstant 2026 1 1 0 0 0
def QUAKE_10_BEFORE_2027_END_ET : Int := etInstant 2026 12 31 23 59 59
def QUAKE_9_BEFORE_2027_START_ET : Int := etInstant 2026 1 1 0 0 0
def QUAKE_9_BEFORE_2027_END_ET : Int := etInstant 2026 12 31 23 59 59
def MEGA_JAN31_START_ET : Int := etInstant 2026 1 1 0 0 0
def MEGA_JAN31_END_ET : Int := etInstant 2026 1 31 23 59 59
def MEGA_MAR31_START_ET : Int := etInstant 2026 1 1 0 0 0
def MEGA_MAR31_END_ET : Int := etInstant 2026 3 31 23 59 59
def MEGA_JUN30_START_ET : Int := etInstant 2026 1 1 0 0 0
def MEGA_JUN30_END_ET : Int := etInstant 2026 6 30 23 59 59
def ANY7_MAR31_START_ET : Int := etInstant 2026 1 1 0 0 0
def ANY7_MAR31_END_ET : Int := etInstant 2026 3 31 23 59 59
def COUNT_7_JUN30_START_ET : Int := etInstant 2026 1 1 0 0 0
def COUNT_7_JUN30_END_ET : Int := etInstant 2026 6 30 23 59 59
def COUNT_65_JAN11_START_ET : Int := etInstant 2026 1 1 0 0 0
def COUNT_65_JAN11_END_ET : Int := etInstant 2026 1 11 23 59 59
def COUNT_65_JAN18_START_ET : Int := etInstant 2026 1 1 0 0 0
def COUNT_65_JAN18_END_ET : Int := etInstant 2026 1 18 23 59 59
def COUNT_7_2026_START_ET : Int := etInstant 2026 1 1 0 0 0
def COUNT_7_2026_END_ET : Int := etInstant 2026 12 31 23 59 59

/-! Market label strings, verbatim from `classify_markets` (lines 344-401). -/

def LA_LABEL : String := "LA 50-mile ‚â•6.5 (2025-06-09..2025-12-31 23:59:59 ET)"
def MEGA1_LABEL : String := "Megaquake ‚â•8.0 (2025-10-30..2025-11-30 23:59:59 ET)"
def MEGA2_LABEL : String := "Megaquake ‚â•8.0 (2025-09-30..2025-12-31 23:59:59 ET)"
def ANY7_1_LABEL : String := "7.0+ anywhere (2025-10-30 19:00 ET..2025-11-15 23:59:59 ET)"
def ANY7_2_LABEL : String := "7.0+ anywhere (2025-10-30 19:00 ET..2025-11-30 23:59:59 ET)"
def QUAKE_10_LABEL : String := "10.0+ earthquake before 2027"
def QUAKE_9_LABEL : String := "9.0+ earthquake before 2027"
def MEGA_JAN31_LABEL : String := "Megaquake by January 31, 2026"
def MEGA_MAR31_LABEL : String := "Megaquake by March 31, 2026"
def MEGA_JUN30_LABEL : String := "Megaquake by June 30, 2026"
def ANY7_MAR31_LABEL : String := "Another 7.0+ earthquake by March 31, 2026"
def COUNT_7_JUN30_LABEL : String := "How many 7.0+ earthquakes by June 30, 2026"
def COUNT_65_JAN11_LABEL : String := "How many 6.5+ earthquakes by January 11, 2026"
def COUNT_65_JAN18_LABEL : String := "How many 6.5+ earthquakes by January 18, 2026"
def COUNT_7_2026_LABEL : String := "How many 7.0+ earthquakes in 2026"

/-! ### Time-window test (lines 230-232 and 327-329) -/

/-- `to_et(dt_utc) = dt_utc.astimezone(ET)`: changes the representation,
not the instant; aware-datetime comparison compares instants, so at the
instant level this is the identity. -/
def to_et (t_utc : Int) : Int := t_utc

/-- `in_window_et(dt_utc, start_et, end_et) = start_et <= to_et(dt_utc) <= end_et`
(line 327-329), inclusive on both bounds. -/
def in_window_et (t_utc start_et end_et : Int) : Prop :=
  start_et ≤ to_et t_utc ∧ to_et t_utc ≤ end_et

instance (t s e : Int) : Decidable (in_window_et t s e) :=
  inferInstanceAs (Decidable (_ ∧ _))

/-! ### Geo utility (lines 219-227)

`km_distance` computes a haversine great-circle distance with floating
trigonometry; the classifier only compares its value with a constant, so it
is abstracted as a `dist` parameter.  Called with a missing coordinate
(`None`), `math.radians(None)` raises `TypeError`; this raise is embedded
as `Except.error`. -/

def km_distance_py (dist : Int → Int → Int → Int → Int)
    (lat1 lon1 : Option Int) (lat2 lon2 : Int) : Except Unit Int :=
  match lat1, lon1 with
  | some a, some b => Except.ok (dist a b lat2 lon2)
  | _, _ => Except.error ()

/-! ### Classifier (lines 332-403)

`classify_markets(mag, lat, lon, t_utc)` appends each market's label to the
result list when the market's guard holds; the sequence of conditional
appends is embedded as a concatenation of conditional singleton lists, in
the source's order.  Only the first (LA) rule touches `lat`/`lon`; a raise
inside `km_distance` aborts the whole call, so the call is `Except`. -/

/-- The fourteen non-geofenced conditional appends of `classify_markets`
(lines 346-401), in source order. -/
def classify_markets_rest (mag t_utc : Int) : List String :=
  (if mag ≥ 80000 ∧ in_window_et t_utc MEGA1_START_ET MEGA1_END_ET then [MEGA1_LABEL] else [])
    ++ (if mag ≥ 80000 ∧ in_window_et t_utc MEGA2_START_ET MEGA2_END_ET then [MEGA2_LABEL] else [])
    ++ (if mag ≥ 70000 ∧ in_window_et t_utc ANY7_1_START_ET ANY7_1_END_ET then [ANY7_1_LABEL] else [])
    ++ (if mag ≥ 70000 ∧ in_window_et t_utc ANY7_2_START_ET ANY7_2_END_ET then [ANY7_2_LABEL] else [])
    ++ (if mag ≥ 100000 ∧ in_window_et t_utc QUAKE_10_BEFORE_2027_START_ET QUAKE_10_BEFORE_2027_END_ET then [QUAKE_10_LABEL] else [])
    ++ (if mag ≥ 90000 ∧ in_window_et t_utc QUAKE_9_BEFORE_2027_START_ET QUAKE_9_BEFORE_2027_END_ET then [QUAKE_9_LABEL] else [])
    ++ (if mag ≥ 80000 ∧ in_window_et t_utc MEGA_JAN31_START_ET MEGA_JAN31_END_ET then [MEGA_JAN31_LABEL] else [])
    ++ (if mag ≥ 80000 ∧ in_window_et t_utc MEGA_MAR31_START_ET MEGA_MAR31_END_ET then [MEGA_MAR31_LABEL] else [])
    ++ (if mag ≥ 80000 ∧ in_window_et t_utc MEGA_JUN30_START_ET MEGA_JUN30_END_ET then [MEGA_JUN30_LABEL] else [])
    ++ (if mag ≥ 70000 ∧ in_window_et t_utc ANY7_MAR31_START_ET ANY7_MAR31_END_ET then [ANY7_MAR31_LABEL] else [])
    ++ (if mag ≥ 70000 ∧ in_window_et t_utc COUNT_7_JUN30_START_ET COUNT_7_JUN30_END_ET then [COUNT_7_JUN30_LABEL] else [])
    ++ (if mag ≥ 65000 ∧ in_window_et t_utc COUNT_65_JAN11_START_ET COUNT_65_JAN11_END_ET then [COUNT_65_JAN11_LABEL] else [])
    ++ (if mag ≥ 65000 ∧ in_window_et t_utc COUNT_65_JAN18_START_ET COUNT_65_JAN18_END_ET then [COUNT_65_JAN18_LABEL] else [])
    ++ (if mag ≥ 70000 ∧ in_window_et t_utc COUNT_7_2026_START_ET COUNT_7_2026_END_ET then [COUNT_7_2026_LABEL] else [])

/-- `classify_markets` (lines 332-403).  The LA rule (lines 342-344) guards
on magnitude and window, then calls `km_distance(lat, lon, LA)` — which
raises if a coordinate is `None` — and appends on distance ≤ 50 miles. -/
def classify_markets (dist : Int → Int → Int → Int → Int)
    (mag : Int) (lat lon : Option Int) (t_utc : Int) : Except Unit (List String) :=
  match (if mag ≥ 65000 ∧ in_window_et t_utc LA_START_ET LA_END_ET then
           (km_distance_py dist lat lon LA_LAT LA_LON).map
             (fun dkm => if dkm ≤ FIFTY_MILES_KM then [LA_LABEL] else [])
         else Except.ok []) with
  | Except.error e => Except.error e
  | Except.ok laSeg => Except.ok (laSeg ++ classify_markets_rest mag t_utc)

/-! ### Rule table (specification view of the same fifteen rules)

A data-driven view of the fifteen hardcoded rules, used to state the
classification iff property: name, inclusive magnitude threshold, inclusive
ET window, optional geofence (center, radius). -/

structure MarketRule where
  name : String
  minMag : Int
  startET : Int
  endET : Int
  geofence : Option (Int × Int × Int)

def geo_ok (dist : Int → Int → Int → Int → Int)
    (g : Option (Int × Int × Int)) (lat lon : Int) : Prop :=
  match g with
  | none => True
  | some (clat, clon, radius) => dist lat lon clat clon ≤ radius

instance (dist : Int → Int → Int → Int → Int) (g : Option (Int × Int × Int))
    (lat lon : Int) : Decidable (geo_ok dist g lat lon) :=
  match g with
  | none => Decidable.isTrue trivial
  | some (_, _, _) => inferInstanceAs (Decidable (_ ≤ _))

def rule_matches (dist : Int → Int → Int → Int → Int) (r : MarketRule)
    (mag lat lon t_utc : Int) : Prop :=
  mag ≥ r.minMag ∧ in_window_et t_utc r.startET r.endET ∧ geo_ok dist r.geofence lat lon

def ruleTable : List MarketRule :=
  [⟨LA_LABEL, 65000, LA_START_ET, LA_END_ET, some (LA_LAT, LA_LON, FIFTY_MILES_KM)⟩,
   ⟨MEGA1_LABEL, 80000, MEGA1_START_ET, MEGA1_END_ET, none⟩,
   ⟨MEGA2_LABEL, 80000, MEGA2_START_ET, MEGA2_END_ET, none⟩,
   ⟨ANY7_1_LABEL, 70000, ANY7_1_START_ET, ANY7_1_END_ET, none⟩,
   ⟨ANY7_2_LABEL, 70000, ANY7_2_START_ET, ANY7_2_END_ET, none⟩,
   ⟨QUAKE_10_LABEL, 100000, QUAKE_10_BEFORE_2027_START_ET, QUAKE_10_BEFORE_2027_END_ET, none⟩,
   ⟨QUAKE_9_LABEL, 90000, QUAKE_9_BEFORE_2027_START_ET, QUAKE_9_BEFORE_2027_END_ET, none⟩,
   ⟨MEGA_JAN31_LABEL, 80000, MEGA_JAN31_START_ET, MEGA_JAN31_END_ET, none⟩,
   ⟨MEGA_MAR31_LABEL, 80000, MEGA_MAR31_START_ET, MEGA_MAR31_END_ET, none⟩,
   ⟨MEGA_JUN30_LABEL, 80000, MEGA_JUN30_START_ET, MEGA_JUN30_END_ET, none⟩,
   ⟨ANY7_MAR31_LABEL, 70000, ANY7_MAR31_START_ET, ANY7_MAR31_END_ET, none⟩,
   ⟨COUNT_7_JUN30_LABEL, 70000, COUNT_7_JUN30_START_ET, COUNT_7_JUN30_END_ET, none⟩,
   ⟨COUNT_65_JAN11_LABEL, 65000, COUNT_65_JAN11_START_ET, COUNT_65_JAN11_END_ET, none⟩,
   ⟨COUNT_65_JAN18_LABEL, 65000, COUNT_65_JAN18_START_ET, COUNT_65_JAN18_END_ET, none⟩,
   ⟨COUNT_7_2026_LABEL, 70000, COUNT_7_2026_START_ET, COUNT_7_2026_END_ET, none⟩]

/-! ### Pending map (lines 546-562)

`upsert_pending(pending, eid, mag, occurred_utc, labels)` reads
`datetime.now()`; the embedding passes that clock reading as an explicit
`now` argument.  Python's `sorted(list(set(old).union(new)))` is embedded by
`py_set_union_sorted`: deduplicate the union, then sort ascending by
code-point order (Python string comparison). -/

structure PendingRec where
  first_seen : Int
  occured_at : Int
  latest_mag : Int
  labels : List String
  expires_at : Int
deriving DecidableEq

/-- Code-point lexicographic string comparison (Python `<=` on `str`). -/
def charListLe : List Char → List Char → Bool
  | [], _ => true
  | _ :: _, [] => false
  | a :: as, b :: bs =>
    if a.toNat < b.toNat then true
    else if b.toNat < a.toNat then false
    else charListLe as bs

def pyStrLe (a b : String) : Bool := charListLe a.data b.data

def py_insert (x : String) : List String → List String
  | [] => [x]
  | y :: ys => if pyStrLe x y then x :: y :: ys else y :: py_insert x ys

/-- Python `sorted` on strings (any stable ascending sort; the output is
the unique ascending arrangement of the elements). -/
def py_sorted : List String → List String
  | [] => []
  | x :: xs => py_insert x (py_sorted xs)

/-- `sorted(list(set(a).union(b)))` (line 553). -/
def py_set_union_sorted (a b : List String) : List String :=
  py_sorted ((a ++ b).dedup)

/-- `upsert_pending` (lines 546-562).  Existing record: take the max
magnitude and the sorted label union, leave every other field — in
particular `expires_at` — untouched.  No record: create one anchored at
`now` with expiry `now + 24h`. -/
def upsert_pending (pending : String → Option PendingRec) (eid : String)
    (mag occurred : Int) (labels : List String) (now : Int) :
    String → Option PendingRec :=
  match pending eid with
  | some r0 =>
      fun k =>
        if k = eid then
          some { r0 with latest_mag := max r0.latest_mag mag,
                         labels := py_set_union_sorted r0.labels labels }
        else pending k
  | none =>
      fun k =>
        if k = eid then
          some { first_seen := now, occured_at := occurred, latest_mag := mag,
                 labels := labels, expires_at := now + PENDING_MS }
        else pending k

/-- A sequence of `upsert_pending` calls on one identifier; each call
carries (magnitude, occurrence instant, labels, clock reading). -/
def upsert_calls (eid : String) :
    List (Int × Int × List String × Int) → (String → Option PendingRec) →
    (String → Option PendingRec)
  | [], pending => pending
  | c :: cs, pending =>
      upsert_calls eid cs (upsert_pending pending eid c.1 c.2.1 c.2.2.1 c.2.2.2)

/-! ### Orchestrator (`process_events`, lines 818-849) and collaborators

The Discord webhook post (`send_discord`, lines 482-491) either raises a
`requests` exception or returns a response; only a returned non-2xx status
is handled (logged).  The embedding injects per-call outcomes through a
trace in the state; a raise is the `Bool` flag `true` ("an exception is
propagating"), and — matching Python's in-place mutation — the state at the
raise point is kept. -/

inductive NetOutcome where
  | raiseExc : NetOutcome
  | status : Nat → NetOutcome
deriving DecidableEq

structure MonState where
  seen : List String
  pending : String → Option PendingRec
  sent : Nat
  net : List NetOutcome

/-- `send_discord` (lines 482-491): `requests.post` may raise (propagates —
there is no try/except in this function); otherwise the post counts as sent
and a bad status is merely logged.  An exhausted trace means "post
succeeds". -/
def send_discord (s : MonState) : MonState × Bool :=
  match s.net with
  | [] => ({ s with sent := s.sent + 1 }, false)
  | NetOutcome.raiseExc :: rest => ({ s with net := rest }, true)
  | NetOutcome.status _ :: rest => ({ s with sent := s.sent + 1, net := rest }, false)

/-- `n` successive `send_discord` calls, stopping at the first raise. -/
def send_seq : Nat → MonState → MonState × Bool
  | 0, s => (s, false)
  | Nat.succ n, s =>
      let r := send_discord s
      if r.2 then r else send_seq n r.1

/-- `execute_trades_for_markets` (lines 757-815) with the private key set
(it is hardcoded, line 141): per matched label one order preparation
(`place_polymarket_order` catches all its own exceptions, lines 751-754,
so it never raises) followed by one Discord post, then one summary post. -/
def execute_trades_for_markets (labels : List String) (s : MonState) :
    MonState × Bool :=
  if labels = [] then (s, false)
  else
    let r := send_seq labels.length s
    if r.2 then r else send_discord r.1

/-- One GeoJSON feature as read by `process_events` (lines 819-830):
`feat.get("id")`, `properties.mag`, `properties.time`, and the first two
`geometry.coordinates` entries `(lon, lat)` — each possibly absent. -/
structure PyEvent where
  id : Option String
  mag : Option Int
  time : Option Int
  lat : Option Int
  lon : Option Int

/-- `p.get("mag") or 0.0` (line 828) and `p.get("time") or 0` (line 829):
a missing (or zero) value becomes `0`. -/
def py_or_zero (v : Option Int) : Int := v.getD 0

/-- `build_embed` (lines 494-529) formats `f"{lat:.4f}, {lon:.4f}"` — with a
missing coordinate this raises `TypeError`; nothing else in it can raise in
the paths reached from `process_events` (magnitude is already coerced). -/
def build_embed_py (ev : PyEvent) : Except Unit Unit :=
  match ev.lat, ev.lon with
  | some _, some _ => Except.ok ()
  | _, _ => Except.error ()

/-- One iteration of the `process_events` loop body (lines 819-849) for one
feature.  Returns the (possibly mutated) state and whether an exception is
propagating out of the loop.  Mirrors the source order: seen-gate →
extraction → classify → critical alert → pending upsert + trades → mark
seen. -/
def process_event (dist : Int → Int → Int → Int → Int) (now : Int)
    (ev : PyEvent) (s : MonState) : MonState × Bool :=
  match ev.id with
  | none => (s, false)
  | some eid =>
    -- `if not eid or eid in seen: continue` — an empty id string is falsy
    if eid = "" ∨ eid ∈ s.seen then (s, false)
    else
      let mag := py_or_zero ev.mag
      let occurred := py_or_zero ev.time
      match classify_markets dist mag ev.lat ev.lon occurred with
      | Except.error _ => (s, true)
      | Except.ok labels =>
        let step1 : MonState × Bool :=
          if mag ≥ CRITICAL_MAG then
            match build_embed_py ev with
            | Except.error _ => (s, true)
            | Except.ok _ => send_discord s
          else (s, false)
        if step1.2 then step1
        else
          let s1 := step1.1
          let step2 : MonState × Bool :=
            if labels ≠ [] then
              execute_trades_for_markets labels
                { s1 with pending := upsert_pending s1.pending eid mag occurred labels now }
            else (s1, false)
          if step2.2 then step2
          else ({ step2.1 with seen := eid :: step2.1.seen }, false)

/-- `process_events` (lines 818-849): the loop over the batch.  An
exception propagating from one event's processing aborts the loop (it is
caught only by the `main` cycle handler, lines 900-901); state mutated so
far is kept. -/
def process_events (dist : Int → Int → Int → Int → Int) (now : Int) :
    List PyEvent → MonState → MonState × Bool
  | [], s => (s, false)
  | e :: rest, s =>
      let r := process_event dist now e s
      if r.2 then r else process_events dist now rest r.1

/-! ### Heartbeat scheduler (lines 256-324)

The bucket key is `now_local.strftime("%Y-%m-%d-%H")`, injective in the
(local date, hour) pair, embedded as that pair.  The due condition (lines
290-292): hour equals `HEARTBEAT_HOUR`, minute `< 2`, and the stored key
differs (a missing state file reads as `None`, which differs from every
key).  On due the key is saved first (line 293), then the beacon is sent. -/

def maybe_send_heartbeat (last : Option (Int × Nat)) (day : Int)
    (hour minute : Nat) : Bool × Option (Int × Nat) :=
  if hour = HEARTBEAT_HOUR ∧ minute < 2 ∧ last ≠ some (day, hour) then
    (true, some (day, hour))
  else (false, last)

/-- One due-check during hour `HEARTBEAT_HOUR` of day `day`, folded into a
(count of signals sent, heartbeat state) accumulator. -/
def heartbeat_step (day : Int) (acc : Nat × Option (Int × Nat)) (minute : Nat) :
    Nat × Option (Int × Nat) :=
  let r := maybe_send_heartbeat acc.2 day HEARTBEAT_HOUR minute
  (acc.1 + (if r.1 then 1 else 0), r.2)

/-- Run the due-check at each given minute of hour `HEARTBEAT_HOUR`. -/
def heartbeat_run (day : Int) (last : Option (Int × Nat)) (minutes : List Nat) :
    Nat × Option (Int × Nat) :=
  minutes.foldl (heartbeat_step day) (0, last)

/-! ### Concrete helpers for witnesses -/

/-- A concrete stand-in for the abstract haversine distance. -/
def dist_zero : Int → Int → Int → Int → Int := fun _ _ _ _ => 0

/-- The empty pending map. -/
def empty_pending : String → Option PendingRec := fun _ => none

/-- All fifteen market labels, in the order `classify_markets` appends them. -/
def all_labels : List String :=
  [LA_LABEL, MEGA1_LABEL, MEGA2_LABEL, ANY7_1_LABEL, ANY7_2_LABEL,
   QUAKE_10_LABEL, QUAKE_9_LABEL, MEGA_JAN31_LABEL, MEGA_MAR31_LABEL,
   MEGA_JUN30_LABEL, ANY7_MAR31_LABEL, COUNT_7_JUN30_LABEL,
   COUNT_65_JAN11_LABEL, COUNT_65_JAN18_LABEL, COUNT_7_2026_LABEL]

/-! ## Helper lemmas -/

theorem mem_ite_nil {c : Prop} [Decidable c] {x : String} {X : List String} :
    x ∈ (if c then X else []) ↔ c ∧ x ∈ X := by
  split <;> simp_all

theorem mem_ite_singleton {c : Prop} [Decidable c] {x y : String} :
    x ∈ (if c then [y] else []) ↔ c ∧ x = y := by
  split <;> simp_all

theorem ite_sublist {c : Prop} [Decidable c] (l : List String) :
    List.Sublist (if c then l else []) l := by
  split
  · exact List.Sublist.refl l
  · exact List.nil_sublist l

theorem mem_py_insert {x y : String} {l : List String} :
    y ∈ py_insert x l ↔ y = x ∨ y ∈ l := by
  induction l with
  | nil => simp [py_insert]
  | cons z zs ih =>
      unfold py_insert
      split
      · simp
      · simp [ih]
        tauto

theorem mem_py_sorted {y : String} {l : List String} :
    y ∈ py_sorted l ↔ y ∈ l := by
  induction l with
  | nil => simp [py_sorted]
  | cons x xs ih => simp [py_sorted, mem_py_insert, ih]

theorem mem_py_set_union_sorted {y : String} {a b : List String} :
    y ∈ py_set_union_sorted a b ↔ y ∈ a ∨ y ∈ b := by
  simp [py_set_union_sorted, mem_py_sorted, List.mem_dedup, List.mem_append]

theorem upsert_pending_insert {pending : String → Option PendingRec}
    {eid : String} {mag occurred : Int} {labels : List String} {now : Int}
    (h : pending eid = none) :
    upsert_pending pending eid mag occurred labels now eid =
      some { first_seen := now, occured_at := occurred, latest_mag := mag,
             labels := labels, expires_at := now + PENDING_MS } := by
  unfold upsert_pending
  rw [h]
  simp

theorem upsert_pending_update {pending : String → Option PendingRec}
    {eid : String} {r0 : PendingRec} {mag occurred : Int}
    {labels : List String} {now : Int} (h : pending eid = some r0) :
    upsert_pending pending eid mag occurred labels now eid =
      some { r0 with latest_mag := max r0.latest_mag mag,
                     labels := py_set_union_sorted r0.labels labels } := by
  unfold upsert_pending
  rw [h]
  simp

/-! ## Claims about the pending map (`upsert_pending`) -/

/-- C6: a first `upsert_pending` on an absent identifier at clock reading
`t0` followed by any later upsert on the same identifier (any magnitude,
occurrence time, labels and clock reading) leaves `expires_at` at
`t0 + 24h` (not extended) and leaves `first_seen` and `occured_at`
unchanged; only `latest_mag` (max) and `labels` (sorted union) change. -/
theorem upsert_expiry_anchored_at_first_insert
    (pending : String → Option PendingRec) (eid : String)
    (m occ : Int) (l : List String) (t0 m2 occ2 : Int) (l2 : List String)
    (t1 : Int) (h : pending eid = none) :
    upsert_pending (upsert_pending pending eid m occ l t0) eid m2 occ2 l2 t1 eid =
      some { first_seen := t0, occured_at := occ, latest_mag := max m m2,
             labels := py_set_union_sorted l l2, expires_at := t0 + PENDING_MS } := by
  rw [upsert_pending_update (upsert_pending_insert h)]

theorem upsert_expiry_anchored_witness :
    upsert_pending (upsert_pending empty_pending "e" 66000 1000 ["a"] 5000)
        "e" 63000 2000 ["b"] 3605000 "e" =
      some { first_seen := 5000, occured_at := 1000, latest_mag := max 66000 63000,
             labels := py_set_union_sorted ["a"] ["b"],
             expires_at := 5000 + PENDING_MS } :=
  upsert_expiry_anchored_at_first_insert empty_pending "e" 66000 1000 ["a"]
    5000 63000 2000 ["b"] 3605000 rfl

/-- C7: across any sequence of `upsert_pending` calls on one identifier, the
stored record's `latest_mag` never decreases and its `labels` never lose an
element. -/
theorem upsert_monotone (calls : List (Int × Int × List String × Int))
    (eid : String) (pending : String → Option PendingRec) (r0 : PendingRec)
    (h : pending eid = some r0) :
    ∃ r1, upsert_calls eid calls pending eid = some r1 ∧
      r0.latest_mag ≤ r1.latest_mag ∧ r0.labels ⊆ r1.labels := by
  induction calls generalizing pending r0 with
  | nil => exact ⟨r0, h, le_refl _, fun _ hx => hx⟩
  | cons c cs ih =>
      obtain ⟨r1, hr1, hm, hl⟩ := ih _ _ (upsert_pending_update h)
      refine ⟨r1, hr1, le_trans (le_max_left _ _) hm, fun x hx => hl ?_⟩
      show x ∈ py_set_union_sorted r0.labels c.2.2.1
      exact mem_py_set_union_sorted.mpr (Or.inl hx)

theorem upsert_monotone_witness :
    ∃ r1, upsert_calls "e" [(70000, 5, ["x"], 9)]
        (fun k => if k = "e" then some ⟨0, 0, 60000, ["a"], 86400000⟩ else none)
        "e" = some r1 ∧
      (⟨0, 0, 60000, ["a"], 86400000⟩ : PendingRec).latest_mag ≤ r1.latest_mag ∧
      (⟨0, 0, 60000, ["a"], 86400000⟩ : PendingRec).labels ⊆ r1.labels :=
  upsert_monotone [(70000, 5, ["x"], 9)] "e" _ _ rfl

/-- C8 counterexample: two `upsert_pending` calls with identical arguments do
NOT always yield a record identical to a single call's: the second call
re-stores the labels as a sorted deduplicated list, so with the unsorted
input `["b", "a"]` the stored labels list changes from `["b", "a"]` to
`["a", "b"]`. -/
theorem upsert_not_idempotent_on_labels_order :
    upsert_pending (upsert_pending empty_pending "e" 70000 0 ["b", "a"] 0)
        "e" 70000 0 ["b", "a"] 0 "e"
      ≠ upsert_pending empty_pending "e" 70000 0 ["b", "a"] 0 "e" := by
  decide

/-- C8 amended: calling `upsert_pending` twice with identical arguments
yields a record that agrees with the single-call record on `first_seen`,
`occured_at`, `expires_at` and `latest_mag`, and whose `labels` holds
exactly the same elements (the second call merely re-sorts and
deduplicates the list). -/
theorem upsert_idempotent_up_to_label_order
    (pending : String → Option PendingRec) (eid : String)
    (m occ : Int) (l : List String) (t0 t1 : Int) (h : pending eid = none) :
    ∃ r1 r2,
      upsert_pending pending eid m occ l t0 eid = some r1 ∧
      upsert_pending (upsert_pending pending eid m occ l t0) eid m occ l t1 eid
        = some r2 ∧
      r2.first_seen = r1.first_seen ∧ r2.occured_at = r1.occured_at ∧
      r2.expires_at = r1.expires_at ∧ r2.latest_mag = r1.latest_mag ∧
      (∀ x, x ∈ r2.labels ↔ x ∈ r1.labels) := by
  refine ⟨_, _, upsert_pending_insert h,
    upsert_pending_update (upsert_pending_insert h), rfl, rfl, rfl, ?_, ?_⟩
  · show max m m = m
    exact max_self m
  · intro x
    show x ∈ py_set_union_sorted l l ↔ x ∈ l
    rw [mem_py_set_union_sorted]
    tauto

theorem upsert_idempotent_witness :
    ∃ r1 r2,
      upsert_pending empty_pending "e" 70000 0 ["b", "a"] 0 "e" = some r1 ∧
      upsert_pending (upsert_pending empty_pending "e" 70000 0 ["b", "a"] 0)
          "e" 70000 0 ["b", "a"] 0 "e" = some r2 ∧
      r2.first_seen = r1.first_seen ∧ r2.occured_at = r1.occured_at ∧
      r2.expires_at = r1.expires_at ∧ r2.latest_mag = r1.latest_mag ∧
      (∀ x, x ∈ r2.labels ↔ x ∈ r1.labels) :=
  upsert_idempotent_up_to_label_order empty_pending "e" 70000 0 ["b", "a"] 0 0 rfl

/-! ## Claims about the classifier (`classify_markets`) -/

theorem classify_ok_of_coords (dist : Int → Int → Int → Int → Int)
    (mag lat lon t : Int) :
    classify_markets dist mag (some lat) (some lon) t =
      Except.ok ((if mag ≥ 65000 ∧ in_window_et t LA_START_ET LA_END_ET then
                    (if dist lat lon LA_LAT LA_LON ≤ FIFTY_MILES_KM
                     then [LA_LABEL] else [])
                  else []) ++ classify_markets_rest mag t) := by
  by_cases hg : mag ≥ 65000 ∧ in_window_et t LA_START_ET LA_END_ET
  · simp [classify_markets, km_distance_py, hg, Except.map]
  · simp [classify_markets, km_distance_py, hg, Except.map]

theorem classify_rest_sublist (mag t : Int) :
    List.Sublist (classify_markets_rest mag t)
      ([MEGA1_LABEL] ++ [MEGA2_LABEL] ++ [ANY7_1_LABEL] ++ [ANY7_2_LABEL]
        ++ [QUAKE_10_LABEL] ++ [QUAKE_9_LABEL] ++ [MEGA_JAN31_LABEL]
        ++ [MEGA_MAR31_LABEL] ++ [MEGA_JUN30_LABEL] ++ [ANY7_MAR31_LABEL]
        ++ [COUNT_7_JUN30_LABEL] ++ [COUNT_65_JAN11_LABEL]
        ++ [COUNT_65_JAN18_LABEL] ++ [COUNT_7_2026_LABEL]) := by
  unfold classify_markets_rest
  iterate 13 refine List.Sublist.append ?_ (ite_sublist _)
  exact ite_sublist _

/-- C10: whatever the inputs, a successful classification returns a list of
market labels with no duplicate entries (it is a sublist of the fifteen
pairwise-distinct label literals). -/
theorem classify_markets_nodup (dist : Int → Int → Int → Int → Int)
    (mag : Int) (lat lon : Option Int) (t : Int) (L : List String)
    (h : classify_markets dist mag lat lon t = Except.ok L) : L.Nodup := by
  have hall : all_labels.Nodup := by decide
  have hsub : List.Sublist L all_labels := by
    by_cases hg : mag ≥ 65000 ∧ in_window_et t LA_START_ET LA_END_ET
    · rcases lat with _ | la
      · unfold classify_markets at h
        rw [if_pos hg] at h
        simp [km_distance_py, Except.map] at h
      · rcases lon with _ | lo
        · unfold classify_markets at h
          rw [if_pos hg] at h
          simp [km_distance_py, Except.map] at h
        · rw [classify_ok_of_coords, Except.ok.injEq] at h
          rw [← h]
          have hla : List.Sublist
              (if mag ≥ 65000 ∧ in_window_et t LA_START_ET LA_END_ET then
                 (if dist la lo LA_LAT LA_LON ≤ FIFTY_MILES_KM
                  then [LA_LABEL] else [])
               else []) [LA_LABEL] := (ite_sublist _).trans (ite_sublist _)
          exact hla.append (classify_rest_sublist mag t)
    · have hco : classify_markets dist mag lat lon t
          = Except.ok (classify_markets_rest mag t) := by
        unfold classify_markets
        rw [if_neg hg]
        rfl
      rw [hco, Except.ok.injEq] at h
      rw [← h]
      exact List.Sublist.cons LA_LABEL (classify_rest_sublist mag t)
  exact hsub.nodup hall

theorem classify_markets_nodup_witness : ([] : List String).Nodup :=
  classify_markets_nodup dist_zero 0 none none 0 [] rfl

/-- C4 counterexample: an event with an absent latitude is NOT merely
skipped for the geofenced rule — when the LA rule's magnitude/time guard
holds (magnitude 7.0, 2025-07-01 12:00 ET, inside the 2025 LA window),
`classify_markets` raises (`km_distance` is called on `None`), instead of
"never failing". -/
theorem classify_missing_coords_raises :
    classify_markets dist_zero 70000 none (some 0) (etInstant 2025 7 1 12 0 0)
      = Except.error () := rfl

/-- C4 amended: with an absent latitude or longitude, classification raises
exactly when the geofenced LA rule's magnitude/time guard holds; otherwise
the geofenced rule is skipped (short-circuited by its guard) and the event
is evaluated against precisely the fourteen non-geofenced conditional
appends, without failing. -/
theorem classify_missing_coords_behavior (dist : Int → Int → Int → Int → Int)
    (mag : Int) (lat lon : Option Int) (t : Int)
    (hmiss : lat = none ∨ lon = none) :
    (mag ≥ 65000 ∧ in_window_et t LA_START_ET LA_END_ET →
        classify_markets dist mag lat lon t = Except.error ()) ∧
    (¬(mag ≥ 65000 ∧ in_window_et t LA_START_ET LA_END_ET) →
        classify_markets dist mag lat lon t =
          Except.ok (classify_markets_rest mag t)) := by
  constructor
  · intro hg
    unfold classify_markets
    rw [if_pos hg]
    have hkm : km_distance_py dist lat lon LA_LAT LA_LON = Except.error () := by
      rcases hmiss with h | h <;> rcases lat with _ | la <;> rcases lon with _ | lo <;>
        simp_all [km_distance_py]
    rw [hkm]
    rfl
  · intro hg
    unfold classify_markets
    rw [if_neg hg]
    rfl

theorem classify_missing_coords_witness :
    classify_markets dist_zero 70000 none none (etInstant 2025 7 1 12 0 0)
      = Except.error () :=
  (classify_missing_coords_behavior dist_zero 70000 none none
      (etInstant 2025 7 1 12 0 0) (Or.inl rfl)).1 (by decide)

/-- Magnitude `0` is below every market threshold, so classification always
succeeds with the empty label list (whatever the coordinates, present or
absent, and whatever the time). -/
theorem classify_markets_zero_mag (dist : Int → Int → Int → Int → Int)
    (lat lon : Option Int) (t : Int) :
    classify_markets dist 0 lat lon t = Except.ok [] := by
  have h65 : ¬ (0 : Int) ≥ 65000 := by decide
  have h70 : ¬ (0 : Int) ≥ 70000 := by decide
  have h80 : ¬ (0 : Int) ≥ 80000 := by decide
  have h90 : ¬ (0 : Int) ≥ 90000 := by decide
  have h100 : ¬ (0 : Int) ≥ 100000 := by decide
  unfold classify_markets classify_markets_rest
  simp [h65, h70, h80, h90, h100]

/-- C2 counterexample: a record with no magnitude IS coerced to the default
`0.0` by `p.get("mag") or 0.0`, and the threshold comparisons are then
evaluated against that default — classification proceeds normally (returns
`ok []`), the event is processed and marked seen; no comparison "explicitly
fails". -/
theorem missing_mag_coerced_to_zero :
    py_or_zero none = 0 ∧
    classify_markets dist_zero (py_or_zero none) (some 0) (some 0) 0
      = Except.ok [] ∧
    ¬ py_or_zero none ≥ CRITICAL_MAG ∧
    process_event dist_zero 0 ⟨some "a", none, some 0, some 0, some 0⟩
        ⟨[], empty_pending, 0, []⟩
      = (⟨["a"], empty_pending, 0, []⟩, false) :=
  ⟨rfl, rfl, by decide, rfl⟩

/-- C2 amended: a missing magnitude is substituted with `0.0` before the
threshold comparisons; because every threshold (`CRITICAL_MAG = 6.4` and
all market minima) is positive, the substituted default fails every
comparison, so such an event matches no market and triggers no critical
alert — the outcome coincides with a failed comparison even though the
comparison is evaluated against the default. -/
theorem missing_mag_matches_nothing (dist : Int → Int → Int → Int → Int)
    (lat lon : Option Int) (t : Int) :
    py_or_zero none = 0 ∧
    classify_markets dist (py_or_zero none) lat lon t = Except.ok [] ∧
    ¬ py_or_zero none ≥ CRITICAL_MAG :=
  ⟨rfl, classify_markets_zero_mag dist lat lon t, by decide⟩

/-- C5: for every rule of the table (the fifteen hardcoded markets) and
every event with coordinates present, `classify_markets` returns the rule's
label iff the event's magnitude reaches the rule's inclusive threshold, its
occurrence instant lies in the rule's ET window inclusively on both bounds
(`to_et` preserves the instant, so the window test is an instant
comparison), and the rule's geofence — when it has one — contains the event
(`km_distance ≤ radius`, for the same distance function the classifier
calls). -/
theorem classify_iff_rule_matches (dist : Int → Int → Int → Int → Int)
    (mag lat lon t : Int) (r : MarketRule) (hr : r ∈ ruleTable) :
    ∃ L, classify_markets dist mag (some lat) (some lon) t = Except.ok L ∧
      (r.name ∈ L ↔ rule_matches dist r mag lat lon t) := by
  refine ⟨_, classify_ok_of_coords dist mag lat lon t, ?_⟩
  simp only [ruleTable] at hr
  fin_cases hr <;>
    simp [rule_matches, geo_ok, classify_markets_rest, List.mem_append,
      mem_ite_singleton, mem_ite_nil, and_assoc,
      LA_LABEL, MEGA1_LABEL, MEGA2_LABEL, ANY7_1_LABEL, ANY7_2_LABEL,
      QUAKE_10_LABEL, QUAKE_9_LABEL, MEGA_JAN31_LABEL, MEGA_MAR31_LABEL,
      MEGA_JUN30_LABEL, ANY7_MAR31_LABEL, COUNT_7_JUN30_LABEL,
      COUNT_65_JAN11_LABEL, COUNT_65_JAN18_LABEL, COUNT_7_2026_LABEL]

theorem classify_iff_witness :
    ∃ L, classify_markets dist_zero 70000 (some 341000) (some (-1182000))
        (etInstant 2025 11 1 12 0 0) = Except.ok L ∧
      ((⟨LA_LABEL, 65000, LA_START_ET, LA_END_ET,
          some (LA_LAT, LA_LON, FIFTY_MILES_KM)⟩ : MarketRule).name ∈ L ↔
        rule_matches dist_zero
          ⟨LA_LABEL, 65000, LA_START_ET, LA_END_ET,
            some (LA_LAT, LA_LON, FIFTY_MILES_KM)⟩
          70000 341000 (-1182000) (etInstant 2025 11 1 12 0 0)) :=
  classify_iff_rule_matches dist_zero 70000 341000 (-1182000)
    (etInstant 2025 11 1 12 0 0) _ (List.mem_cons_self _ _)

/-! ## Claims about the orchestrator (`process_events`) -/

/-- C1: an event whose identifier is already in the seen set is skipped
entirely by the orchestrator — no classification, no pending upsert, no
notification, no state change — even when the re-fetched record carries a
revised magnitude.  (The script's own docstring, lines 29-30, promises
"updates re-alert" within the 24h pending window; this gate makes the
update path of `upsert_pending` unreachable, so the claim describes the
documented intent, not the code.) -/
theorem seen_event_skipped_entirely (dist : Int → Int → Int → Int → Int)
    (now : Int) (ev : PyEvent) (s : MonState) (eid : String)
    (hid : ev.id = some eid) (hseen : eid ∈ s.seen) :
    process_event dist now ev s = (s, false) := by
  unfold process_event
  rw [hid]
  simp [hseen]

theorem seen_event_skipped_witness :
    process_event dist_zero 0 ⟨some "x", some 66000, some 0, some 0, some 0⟩
        ⟨["x"], empty_pending, 0, []⟩
      = (⟨["x"], empty_pending, 0, []⟩, false) :=
  seen_event_skipped_entirely dist_zero 0 _ _ "x" rfl (by decide)

/-- C3 counterexample: a raise from the Discord post is NOT caught at the
call site.  Concretely: a two-event batch whose first event is critical
(magnitude 6.5) and whose alert post raises; the exception propagates out
of `process_events` (flag `true`, reaching only the `main` cycle handler),
the second event is never processed (its id is not in the seen set), and
nothing was sent. -/
theorem notify_exception_not_caught :
    (process_events dist_zero 0
        [⟨some "a", some 65000, some 0, some 0, some 0⟩,
         ⟨some "b", some 65000, some 0, some 0, some 0⟩]
        ⟨[], empty_pending, 0, [NetOutcome.raiseExc]⟩).2 = true ∧
    "b" ∉ (process_events dist_zero 0
        [⟨some "a", some 65000, some 0, some 0, some 0⟩,
         ⟨some "b", some 65000, some 0, some 0, some 0⟩]
        ⟨[], empty_pending, 0, [NetOutcome.raiseExc]⟩).1.seen ∧
    (process_events dist_zero 0
        [⟨some "a", some 65000, some 0, some 0, some 0⟩,
         ⟨some "b", some 65000, some 0, some 0, some 0⟩]
        ⟨[], empty_pending, 0, [NetOutcome.raiseExc]⟩).1.sent = 0 :=
  ⟨rfl, by decide, rfl⟩

/-- C3 amended: `send_discord` handles only returned HTTP error statuses
(by logging); an exception raised by the post propagates out of
`process_events` — aborting processing of the remaining events of the
batch — and is caught only by the per-cycle handler in `main`, which logs
it and proceeds to the next cycle. -/
theorem notify_exception_aborts_batch (dist : Int → Int → Int → Int → Int)
    (now : Int) (ev : PyEvent) (rest : List PyEvent) (s : MonState)
    (eid : String) (la lo : Int) (labels : List String) (ns : List NetOutcome)
    (hid : ev.id = some eid) (hne : eid ≠ "") (hseen : eid ∉ s.seen)
    (hlat : ev.lat = some la) (hlon : ev.lon = some lo)
    (hcls : classify_markets dist (py_or_zero ev.mag) (some la) (some lo)
        (py_or_zero ev.time) = Except.ok labels)
    (hmag : py_or_zero ev.mag ≥ CRITICAL_MAG)
    (hnet : s.net = NetOutcome.raiseExc :: ns) :
    process_events dist now (ev :: rest) s = ({ s with net := ns }, true) := by
  unfold process_events process_event
  rw [hid]
  simp [hne, hseen, hlat, hlon, hcls, hmag, build_embed_py, send_discord, hnet]

theorem notify_exception_aborts_witness :
    process_events dist_zero 0
        [⟨some "a", some 65000, some 0, some 0, some 0⟩,
         ⟨some "c", some 65000, some 0, some 0, some 0⟩]
        ⟨[], empty_pending, 0, [NetOutcome.raiseExc]⟩
      = (⟨[], empty_pending, 0, []⟩, true) :=
  notify_exception_aborts_batch dist_zero 0 _ _ _ "a" 0 0 [] []
    rfl (by decide) (by decide) rfl rfl rfl (by decide) rfl

/-! ## Claim about the heartbeat scheduler (`maybe_send_heartbeat`) -/

/-- C9: the due-check fires exactly when the local hour equals the target
hour, the minute is inside the two-minute arming window, and the stored
bucket key differs from the current one — and firing stores the current
bucket key, so checking once per minute for the 60 minutes of the target
hour yields exactly one signal (at the first check), with the bucket key
recorded. -/
theorem heartbeat_fires_once_per_bucket :
    (∀ (last : Option (Int × Nat)) (day : Int) (hour minute : Nat),
        (maybe_send_heartbeat last day hour minute).1 = true ↔
          (hour = HEARTBEAT_HOUR ∧ minute < 2 ∧ last ≠ some (day, hour))) ∧
    (∀ (day : Int) (last0 : Option (Int × Nat)),
        last0 ≠ some (day, HEARTBEAT_HOUR) →
          heartbeat_run day last0 (List.range 60)
            = (1, some (day, HEARTBEAT_HOUR))) := by
  constructor
  · intro last day hour minute
    unfold maybe_send_heartbeat
    split
    · rename_i hc
      obtain ⟨h1, h2, h3⟩ := hc
      subst h1
      simp [h2, h3]
    · rename_i hc
      simp [hc]
  · intro day last0 h0
    have stay : ∀ (ms : List Nat) (c : Nat),
        ms.foldl (heartbeat_step day) (c, some (day, HEARTBEAT_HOUR))
          = (c, some (day, HEARTBEAT_HOUR)) := by
      intro ms
      induction ms with
      | nil => intro c; rfl
      | cons m ms ih =>
          intro c
          rw [List.foldl_cons,
            show heartbeat_step day (c, some (day, HEARTBEAT_HOUR)) m
                = (c, some (day, HEARTBEAT_HOUR)) by
              simp [heartbeat_step, maybe_send_heartbeat]]
          exact ih c
    have h60 : List.range 60 = 0 :: List.range' 1 59 := by decide
    unfold heartbeat_run
    rw [h60, List.foldl_cons,
      show heartbeat_step day (0, last0) 0 = (1, some (day, HEARTBEAT_HOUR)) by
        simp [heartbeat_step, maybe_send_heartbeat, h0]]
    exact stay _ 1

theorem heartbeat_fires_once_witness :
    heartbeat_run 0 none (List.range 60) = (1, some (0, 16)) :=
  heartbeat_fires_once_per_bucket.2 0 none (by decide)

end EqMonitor
